import Mathlib

/-!
Verification of the storefront aggregation pipeline
(`swagger_server/controllers/store_controller.py`, function
`show_storefront_products`, together with the `Product` and `Error` models).

The Python code is shallowly embedded:
  * JSON / Python values flowing through the controller are modelled by
    `PyVal` (Python `None`, integers, strings and lists); upstream records
    (JSON objects) are association lists `Rec`.
  * `dict.get` is `rget` / `rgetD`, Python truthiness is `truthy`,
    Python `str(...)` is `pyStr`.
  * The upstream TyA microservice is an environment `Env` mapping each
    HTTP request to either a parsed JSON body (a list of records) or a
    network/transport failure.
  * The two-phase fetch (filter endpoints, then batched list endpoints)
    is the interpreter `tryFetch`, which also logs the requests it issues;
    the surrounding `except` handler that degrades every kind to an empty
    list is `fetchAll`.
  * The three mapping loops are `mapSong`, `mapAlbum`, `mapMerch`;
    expressions that raise in Python (subscripting / iterating a
    non-subscriptable / non-iterable value) return `Except.error`.
  * The outer handler returning `Error(code="500", message=str(e))` is the
    `Except.error` branch of `show_storefront_products`.
  * `Product.__init__` assigns the private attributes directly (it does not
    go through the validating setters), so product construction never
    raises; accordingly `Product` is a plain structure here.
-/

/-- Python/JSON values that flow through the controller: `None`/null,
integers, strings and lists.  (Floats only ever pass through the pipeline
unchanged, so numeric payloads are represented by `int`.) -/
inductive PyVal where
  | none : PyVal
  | int : Int → PyVal
  | str : String → PyVal
  | list : List PyVal → PyVal

mutual

/-- Decidable equality on `PyVal` (the derive handler does not support the
nested occurrence of `List PyVal`). -/
def pyDecEq : (a b : PyVal) → Decidable (a = b)
  | PyVal.none, PyVal.none => Decidable.isTrue rfl
  | PyVal.none, PyVal.int _ => Decidable.isFalse (fun h => PyVal.noConfusion h)
  | PyVal.none, PyVal.str _ => Decidable.isFalse (fun h => PyVal.noConfusion h)
  | PyVal.none, PyVal.list _ => Decidable.isFalse (fun h => PyVal.noConfusion h)
  | PyVal.int _, PyVal.none => Decidable.isFalse (fun h => PyVal.noConfusion h)
  | PyVal.int a, PyVal.int b =>
      match decEq a b with
      | Decidable.isTrue h => Decidable.isTrue (by rw [h])
      | Decidable.isFalse h =>
          Decidable.isFalse (fun hh => h (by injection hh))
  | PyVal.int _, PyVal.str _ => Decidable.isFalse (fun h => PyVal.noConfusion h)
  | PyVal.int _, PyVal.list _ => Decidable.isFalse (fun h => PyVal.noConfusion h)
  | PyVal.str _, PyVal.none => Decidable.isFalse (fun h => PyVal.noConfusion h)
  | PyVal.str _, PyVal.int _ => Decidable.isFalse (fun h => PyVal.noConfusion h)
  | PyVal.str a, PyVal.str b =>
      match decEq a b with
      | Decidable.isTrue h => Decidable.isTrue (by rw [h])
      | Decidable.isFalse h =>
          Decidable.isFalse (fun hh => h (by injection hh))
  | PyVal.str _, PyVal.list _ => Decidable.isFalse (fun h => PyVal.noConfusion h)
  | PyVal.list _, PyVal.none => Decidable.isFalse (fun h => PyVal.noConfusion h)
  | PyVal.list _, PyVal.int _ => Decidable.isFalse (fun h => PyVal.noConfusion h)
  | PyVal.list _, PyVal.str _ => Decidable.isFalse (fun h => PyVal.noConfusion h)
  | PyVal.list a, PyVal.list b =>
      match pyDecEqList a b with
      | Decidable.isTrue h => Decidable.isTrue (by rw [h])
      | Decidable.isFalse h =>
          Decidable.isFalse (fun hh => h (by injection hh))

/-- Decidable equality on lists of `PyVal`. -/
def pyDecEqList : (a b : List PyVal) → Decidable (a = b)
  | [], [] => Decidable.isTrue rfl
  | [], _ :: _ => Decidable.isFalse (fun h => List.noConfusion h)
  | _ :: _, [] => Decidable.isFalse (fun h => List.noConfusion h)
  | a :: as, b :: bs =>
      match pyDecEq a b, pyDecEqList as bs with
      | Decidable.isTrue h1, Decidable.isTrue h2 =>
          Decidable.isTrue (by rw [h1, h2])
      | Decidable.isFalse h1, _ =>
          Decidable.isFalse (fun hh => by injection hh with hx hy; exact h1 hx)
      | _, Decidable.isFalse h2 =>
          Decidable.isFalse (fun hh => by injection hh with hx hy; exact h2 hy)

end

instance : DecidableEq PyVal := pyDecEq

/-- Python truthiness of a `PyVal`: `None` is falsy, numbers are truthy iff
nonzero, strings and lists are truthy iff non-empty. -/
def truthy : PyVal → Bool
  | PyVal.none => false
  | PyVal.int n => n != 0
  | PyVal.str s => !s.data.isEmpty
  | PyVal.list l => !l.isEmpty

mutual

/-- Python `str(...)` on a `PyVal`: `str(None) = "None"`, integers print in
decimal, a string is returned unchanged, and a list prints as its repr
(`"[a, b]"` with elements shown by `pyRepr`). -/
def pyStr : PyVal → String
  | PyVal.none => "None"
  | PyVal.int n => toString n
  | PyVal.str s => s
  | PyVal.list l => "[" ++ String.intercalate ", " (pyReprList l) ++ "]"

/-- Python `repr(...)` on a `PyVal` (strings gain quotes); only used for
list elements inside `pyStr`. -/
def pyRepr : PyVal → String
  | PyVal.none => "None"
  | PyVal.int n => toString n
  | PyVal.str s => "\x27" ++ s ++ "\x27"
  | PyVal.list l => "[" ++ String.intercalate ", " (pyReprList l) ++ "]"

/-- `repr` of each element of a Python list. -/
def pyReprList : List PyVal → List String
  | [] => []
  | v :: vs => pyRepr v :: pyReprList vs

end

/-- An upstream record (a parsed JSON object): an association list from
field names to values.  JSON objects have unique keys, so first-match
lookup is exact. -/
abbrev Rec : Type := List (String × PyVal)

/-- Python `record.get(key)`: the stored value, or `None` when the key is
absent. -/
def rget (r : Rec) (k : String) : PyVal :=
  match List.find? (fun p => p.1 == k) r with
  | Option.some p => p.2
  | Option.none => PyVal.none

/-- Python `record.get(key, default)`: the stored value, or `default` when
the key is absent (note: a stored JSON null is returned as `PyVal.none`,
not replaced by the default — exactly like Python's `dict.get`). -/
def rgetD (r : Rec) (k : String) (d : PyVal) : PyVal :=
  match List.find? (fun p => p.1 == k) r with
  | Option.some p => p.2
  | Option.none => d

/-- Python subscripting `v[0]`: head of a list, first character of a
string; raises `TypeError` on `None`/integers and `IndexError` on empty
sequences (the raised message is carried in the `error`). -/
def subscript0 : PyVal → Except String PyVal
  | PyVal.list (x :: _) => Except.ok x
  | PyVal.list [] => Except.error "IndexError: list index out of range"
  | PyVal.str s =>
      match s.data with
      | c :: _ => Except.ok (PyVal.str c.toString)
      | [] => Except.error "IndexError: string index out of range"
  | PyVal.int _ => Except.error "TypeError: \x27int\x27 object is not subscriptable"
  | PyVal.none => Except.error "TypeError: \x27NoneType\x27 object is not subscriptable"

/-- The Python comprehension `[str(i) for i in v]`: stringifies each
element of a list (or each character of a string); iterating `None` or an
integer raises `TypeError`. -/
def strEachIter : PyVal → Except String (List String)
  | PyVal.list l => Except.ok (l.map pyStr)
  | PyVal.str s => Except.ok (s.data.map fun c => c.toString)
  | PyVal.int _ => Except.error "TypeError: \x27int\x27 object is not iterable"
  | PyVal.none => Except.error "TypeError: \x27NoneType\x27 object is not iterable"

/-- The genre expression of the song and album loops:
`str(r.get("genres", ["0"])[0]) if r.get("genres") else "0"`. -/
def genreField (r : Rec) : Except String String :=
  if truthy (rget r "genres") then
    match subscript0 (rgetD r "genres" (PyVal.list [PyVal.str "0"])) with
    | Except.error e => Except.error e
    | Except.ok v => Except.ok (pyStr v)
  else
    Except.ok "0"

/-- The `Product` model (`swagger_server/models/product.py`).  Its
`__init__` assigns the private attributes directly without invoking the
validating setters, so construction is total; the structure stores exactly
what the controller passed in.  Fields that the controller always passes
through `str(...)` / comprehensions are `String` / `List String`; the rest
keep the raw `PyVal` (which may be `PyVal.none`). -/
structure Product where
  song_id : PyVal
  album_id : PyVal
  merch_id : PyVal
  name : PyVal
  price : PyVal
  description : PyVal
  artist : String
  colaborators : List String
  release_date : String
  duration : PyVal
  genre : String
  cover : PyVal
  song_list : List String
deriving DecidableEq

/-- Mapping of one raw song record (the first loop of
`show_storefront_products`, lines 205–220).  Python evaluates the
constructor arguments left to right; the only two argument expressions
that can raise are the genre expression and the `collaborators`
comprehension, in that order. -/
def mapSong (c : Rec) : Except String Product :=
  match genreField c with
  | Except.error e => Except.error e
  | Except.ok g =>
    match strEachIter (rgetD c "collaborators" (PyVal.list [])) with
    | Except.error e => Except.error e
    | Except.ok cols =>
      Except.ok
        { song_id := rget c "songId"
          album_id := rget c "albumId"
          merch_id := PyVal.int 0
          name := rget c "title"
          price := rget c "price"
          description := rget c "description"
          artist := pyStr (rget c "artistId")
          colaborators := cols
          release_date := pyStr (rget c "releaseDate") ++ "T00:00:00Z"
          duration := rget c "duration"
          genre := g
          cover := rget c "cover"
          song_list := [] }

/-- Mapping of one raw album record (the second loop, lines 223–238).
The raising argument expressions occur in source order `song_list`
(`songs` comprehension), genre expression, `collaborators`
comprehension. -/
def mapAlbum (a : Rec) : Except String Product :=
  match strEachIter (rgetD a "songs" (PyVal.list [])) with
  | Except.error e => Except.error e
  | Except.ok sl =>
    match genreField a with
    | Except.error e => Except.error e
    | Except.ok g =>
      match strEachIter (rgetD a "collaborators" (PyVal.list [])) with
      | Except.error e => Except.error e
      | Except.ok cols =>
        Except.ok
          { song_id := PyVal.int 0
            album_id := rget a "albumId"
            merch_id := PyVal.int 0
            name := rget a "title"
            price := rget a "price"
            description := rget a "description"
            artist := pyStr (rget a "artistId")
            colaborators := cols
            release_date := pyStr (rget a "releaseDate") ++ "T00:00:00Z"
            duration := PyVal.int 0
            genre := g
            cover := rget a "cover"
            song_list := sl }

/-- Mapping of one raw merch record (the third loop, lines 241–256).
Genre is the fixed literal `"Merch"`; the only raising argument expression
is the `collaborators` comprehension. -/
def mapMerch (m : Rec) : Except String Product :=
  match strEachIter (rgetD m "collaborators" (PyVal.list [])) with
  | Except.error e => Except.error e
  | Except.ok cols =>
    Except.ok
      { song_id := PyVal.int 0
        album_id := PyVal.int 0
        merch_id := rget m "merchId"
        name := rget m "title"
        price := rget m "price"
        description := rget m "description"
        artist := pyStr (rget m "artistId")
        colaborators := cols
        release_date := pyStr (rget m "releaseDate") ++ "T00:00:00Z"
        duration := PyVal.int 0
        genre := "Merch"
        cover := rget m "cover"
        song_list := [] }

/-- The three product kinds handled by the pipeline. -/
inductive Kind where
  | song : Kind
  | album : Kind
  | merch : Kind
deriving DecidableEq

/-- An HTTP request issued to the upstream TyA service:
`filter k` is `GET {base}/{k}/filter` and `list k ids` is
`GET {base}/{k}/list?ids={ids}`. -/
inductive Request where
  | filter : Kind → Request
  | list : Kind → String → Request
deriving DecidableEq

/-- The upstream service, abstracted: each request either yields a parsed
JSON body (a list of records) or fails with a network/transport error
(timeout, connection refused, malformed body, ...). -/
def Env : Type := Request → Except Unit (List Rec)

/-- The identifier field of each kind's filter response. -/
def idField : Kind → String
  | Kind.song => "songId"
  | Kind.album => "albumId"
  | Kind.merch => "merchId"

/-- Identifier extraction (lines 173–175):
`[item.get(f) for item in resp if item.get(f)]` — the ordered list of
truthy identifier values, entries with a missing or falsy identifier
silently dropped. -/
def extractIds (f : String) (resp : List Rec) : List PyVal :=
  (resp.filter fun item => truthy (rget item f)).map fun item => rget item f

/-- `",".join(map(str, ids))` (lines 189, 193, 197). -/
def joinIds (ids : List PyVal) : String :=
  String.intercalate "," (ids.map pyStr)

/-- One guarded detail fetch (`if song_ids: ... client.get(...)`):
returns the requests issued (none when `ids` is empty, otherwise exactly
the batched list request) together with the resulting record list. -/
def detailStep (env : Env) (k : Kind) (ids : List PyVal) :
    List Request × Except Unit (List Rec) :=
  if ids.isEmpty then ([], Except.ok [])
  else
    ([Request.list k (joinIds ids)], env (Request.list k (joinIds ids)))

/-- The records fetched for the three kinds (the local variables
`canciones`, `albumes`, `merch`). -/
structure FetchData where
  canciones : List Rec
  albumes : List Rec
  merch : List Rec
deriving DecidableEq

/-- The three filter requests, always issued first (lines 167–169). -/
def base3 : List Request :=
  [Request.filter Kind.song, Request.filter Kind.album, Request.filter Kind.merch]

/-- The detail phase (lines 183–198): up to three guarded batched detail
requests, in kind order, each executed only when its identifier list is
non-empty; the first failing request aborts the rest. -/
def tryDetails (env : Env) (songIds albumIds merchIds : List PyVal) :
    List Request × Except Unit FetchData :=
  match detailStep env Kind.song songIds with
  | (l1, Except.error e) => (base3 ++ l1, Except.error e)
  | (l1, Except.ok canciones) =>
    match detailStep env Kind.album albumIds with
    | (l2, Except.error e) => (base3 ++ l1 ++ l2, Except.error e)
    | (l2, Except.ok albumes) =>
      match detailStep env Kind.merch merchIds with
      | (l3, Except.error e) => (base3 ++ l1 ++ l2 ++ l3, Except.error e)
      | (l3, Except.ok merch) =>
          (base3 ++ l1 ++ l2 ++ l3,
           Except.ok { canciones := canciones, albumes := albumes, merch := merch })

/-- The body of the inner `try` (lines 160–198): three filter requests,
identifier extraction, then the detail phase, executed sequentially; the
first failing request aborts the rest (a raised exception).  Also returns
the log of requests issued. -/
def tryFetch (env : Env) : List Request × Except Unit FetchData :=
  match env (Request.filter Kind.song) with
  | Except.error e => ([Request.filter Kind.song], Except.error e)
  | Except.ok songResp =>
    match env (Request.filter Kind.album) with
    | Except.error e =>
        ([Request.filter Kind.song, Request.filter Kind.album], Except.error e)
    | Except.ok albumResp =>
      match env (Request.filter Kind.merch) with
      | Except.error e =>
          ([Request.filter Kind.song, Request.filter Kind.album,
            Request.filter Kind.merch], Except.error e)
      | Except.ok merchResp =>
          tryDetails env (extractIds "songId" songResp)
            (extractIds "albumId" albumResp) (extractIds "merchId" merchResp)

/-- The inner `try`/`except` (lines 159–202): any failure inside the
two-phase fetch degrades all three kinds to empty lists; the failure never
escapes. -/
def fetchAll (env : Env) : List Request × FetchData :=
  match tryFetch env with
  | (log, Except.error _) => (log, { canciones := [], albumes := [], merch := [] })
  | (log, Except.ok d) => (log, d)

/-- One mapping loop (`for c in canciones: productos.append(Product(...))`):
maps the records in order, aborting at the first record whose mapping
raises. -/
def mapList (f : Rec → Except String Product) : List Rec → Except String (List Product)
  | [] => Except.ok []
  | r :: rs =>
    match f r with
    | Except.error e => Except.error e
    | Except.ok p =>
      match mapList f rs with
      | Except.error e => Except.error e
      | Except.ok ps => Except.ok (p :: ps)

/-- The three mapping loops in source order (lines 204–256): songs, then
albums, then merch, appended to one output list. -/
def mapAll (d : FetchData) : Except String (List Product) :=
  match mapList mapSong d.canciones with
  | Except.error e => Except.error e
  | Except.ok s =>
    match mapList mapAlbum d.albumes with
    | Except.error e => Except.error e
    | Except.ok a =>
      match mapList mapMerch d.merch with
      | Except.error e => Except.error e
      | Except.ok m => Except.ok (s ++ a ++ m)

/-- The `Error` model (`swagger_server/models/error.py`): a code and a
message (its `__init__` also assigns the private attributes directly). -/
structure ErrorObj where
  code : String
  message : String
deriving DecidableEq

/-- `show_storefront_products` (lines 56–266): the resilient two-phase
fetch, the three mapping loops, and the outer `except` that converts any
exception raised outside the fetch boundary into
`Error(code="500", message=str(e))`.  (The trailing
`[p.to_dict() for p in productos]` serialization and the no-op `finally`
block are identity steps on this data and are elided.) -/
def show_storefront_products (env : Env) : Except ErrorObj (List Product) :=
  match mapAll (fetchAll env).2 with
  | Except.ok ps => Except.ok ps
  | Except.error msg => Except.error { code := "500", message := msg }

/-! ### Helper lemmas -/

/-- Example upstream filter response used to witness C3: an entry with a
truthy identifier, one with identifier `0`, one without the field, and a
second truthy one. -/
def respEx : List Rec :=
  [[("songId", PyVal.int 1)], [("songId", PyVal.int 0)], [],
   [("songId", PyVal.int 2)]]

/-- Concrete upstream album record whose `genres` field is `[7]`;
used to refute C2 as stated. -/
def albEx : Rec := [("albumId", PyVal.int 5), ("genres", PyVal.list [PyVal.int 7])]

/-- The product produced by mapping `albEx`. -/
def albExProd : Product :=
  { song_id := PyVal.int 0, album_id := PyVal.int 5, merch_id := PyVal.int 0,
    name := PyVal.none, price := PyVal.none, description := PyVal.none,
    artist := "None", colaborators := [], release_date := "NoneT00:00:00Z",
    duration := PyVal.int 0, genre := "7", cover := PyVal.none,
    song_list := [] }

/-- The product produced by mapping the empty song record. -/
def emptyRecProd : Product :=
  { song_id := PyVal.none, album_id := PyVal.none, merch_id := PyVal.int 0,
    name := PyVal.none, price := PyVal.none, description := PyVal.none,
    artist := "None", colaborators := [], release_date := "NoneT00:00:00Z",
    duration := PyVal.none, genre := "0", cover := PyVal.none,
    song_list := [] }

/-- A Python value over which the comprehension `[str(i) for i in v]`
cannot raise: a list or a string (both iterable). -/
def iterOk : PyVal → Bool
  | PyVal.list _ => true
  | PyVal.str _ => true
  | _ => false

/-- A `genres` value over which the genre expression cannot raise: truthy
values must be subscriptable (a list or a string); any falsy value is fine
since the guard short-circuits to `"0"`. -/
def genreOk : PyVal → Bool
  | PyVal.list _ => true
  | PyVal.str _ => true
  | PyVal.none => true
  | PyVal.int n => n == 0

/-- Well-formedness of a raw song record: the mapper's two raising
argument expressions are safe.  (Records with the documented upstream
shape — `genres` and `collaborators` lists — satisfy this.) -/
def wfSongRec (r : Rec) : Bool :=
  genreOk (rget r "genres") && iterOk (rgetD r "collaborators" (PyVal.list []))

/-- Well-formedness of a raw album record. -/
def wfAlbumRec (r : Rec) : Bool :=
  iterOk (rgetD r "songs" (PyVal.list [])) && genreOk (rget r "genres") &&
    iterOk (rgetD r "collaborators" (PyVal.list []))

/-- Well-formedness of a raw merch record. -/
def wfMerchRec (r : Rec) : Bool :=
  iterOk (rgetD r "collaborators" (PyVal.list []))

/-- A complete, well-formed song record (the shape documented for the
upstream `song/list` endpoint). -/
def songEx : Rec :=
  [("songId", PyVal.int 1), ("title", PyVal.str "Test Song 1"),
   ("artistId", PyVal.int 1), ("albumId", PyVal.int 1),
   ("price", PyVal.int 2), ("description", PyVal.str "Test"),
   ("releaseDate", PyVal.str "2024-01-01"), ("duration", PyVal.int 180),
   ("cover", PyVal.str "base64"), ("genres", PyVal.list [PyVal.int 1]),
   ("collaborators", PyVal.list [])]

/-- An upstream environment whose song detail record carries a
non-iterable `collaborators` value, making the song mapping raise. -/
def envBad : Env := fun r =>
  match r with
  | Request.filter Kind.song => Except.ok [[("songId", PyVal.int 1)]]
  | Request.filter Kind.album => Except.ok []
  | Request.filter Kind.merch => Except.ok []
  | Request.list Kind.song "1" =>
      Except.ok [[("songId", PyVal.int 1), ("collaborators", PyVal.int 5)]]
  | _ => Except.error ()

/-- An upstream environment whose song filter succeeds (with data) but
whose album filter fails: the shared failure boundary wipes all three
kinds. -/
def envFail : Env := fun r =>
  match r with
  | Request.filter Kind.song => Except.ok [[("songId", PyVal.int 7)]]
  | _ => Except.error ()

/-- A complete, well-formed album record. -/
def albumRecEx : Rec :=
  [("albumId", PyVal.int 3), ("title", PyVal.str "Alb"),
   ("songs", PyVal.list [PyVal.int 1]), ("genres", PyVal.list [PyVal.int 2]),
   ("collaborators", PyVal.list [])]

/-- A complete merch record. -/
def merchRecEx : Rec :=
  [("merchId", PyVal.int 9), ("title", PyVal.str "Tee"),
   ("collaborators", PyVal.list [])]

/-- An upstream environment serving one record of each kind. -/
def env3 : Env := fun r =>
  match r with
  | Request.filter Kind.song => Except.ok [[("songId", PyVal.int 1)]]
  | Request.filter Kind.album => Except.ok [[("albumId", PyVal.int 3)]]
  | Request.filter Kind.merch => Except.ok [[("merchId", PyVal.int 9)]]
  | Request.list Kind.song "1" => Except.ok [songEx]
  | Request.list Kind.album "3" => Except.ok [albumRecEx]
  | Request.list Kind.merch "9" => Except.ok [merchRecEx]
  | _ => Except.error ()

/-- The product mapped from `songEx`. -/
def songExProd : Product :=
  { song_id := PyVal.int 1, album_id := PyVal.int 1, merch_id := PyVal.int 0,
    name := PyVal.str "Test Song 1", price := PyVal.int 2,
    description := PyVal.str "Test", artist := "1", colaborators := [],
    release_date := "2024-01-01T00:00:00Z", duration := PyVal.int 180,
    genre := "1", cover := PyVal.str "base64", song_list := [] }

/-- The product mapped from `albumRecEx`. -/
def albumExProd : Product :=
  { song_id := PyVal.int 0, album_id := PyVal.int 3, merch_id := PyVal.int 0,
    name := PyVal.str "Alb", price := PyVal.none, description := PyVal.none,
    artist := "None", colaborators := [], release_date := "NoneT00:00:00Z",
    duration := PyVal.int 0, genre := "2", cover := PyVal.none,
    song_list := ["1"] }

/-- The product mapped from `merchRecEx`. -/
def merchExProd : Product :=
  { song_id := PyVal.int 0, album_id := PyVal.int 0, merch_id := PyVal.int 9,
    name := PyVal.str "Tee", price := PyVal.none, description := PyVal.none,
    artist := "None", colaborators := [], release_date := "NoneT00:00:00Z",
    duration := PyVal.int 0, genre := "Merch", cover := PyVal.none,
    song_list := [] }

/-- The output list produced by `env3`. -/
def psEx : List Product := [songExProd, albumExProd, merchExProd]

/-- The records fetched for one kind. -/
def kindRecords (d : FetchData) : Kind → List Rec
  | Kind.song => d.canciones
  | Kind.album => d.albumes
  | Kind.merch => d.merch

/-- The segment of the output contributed by one kind. -/
def kindSeg (k : Kind) (s a m : List Product) : List Product :=
  match k with
  | Kind.song => s
  | Kind.album => a
  | Kind.merch => m

/-- An upstream environment whose album filter yields only a falsy
identifier (`albumId = 0`) and whose merch filter yields nothing. -/
def env4 : Env := fun r =>
  match r with
  | Request.filter Kind.song => Except.ok [[("songId", PyVal.int 1)]]
  | Request.filter Kind.album => Except.ok [[("albumId", PyVal.int 0)]]
  | Request.filter Kind.merch => Except.ok []
  | Request.list Kind.song "1" => Except.ok [songEx]
  | _ => Except.error ()

/-- A product classified as a song: its `songId` is populated (truthy). -/
def isSongP (p : Product) : Prop := truthy p.song_id = true

/-- A product classified as an album: `albumId` populated and no
`songId` (songs legitimately carry their parent `albumId`, so album
classification requires the absence of a song identifier). -/
def isAlbumP (p : Product) : Prop :=
  truthy p.album_id = true ∧ truthy p.song_id = false

/-- A product classified as merch: its `merchId` is populated. -/
def isMerchP (p : Product) : Prop := truthy p.merch_id = true

/-- Membership in exactly one of the three kinds. -/
def exactlyOneKind (p : Product) : Prop :=
  (isSongP p ∧ ¬isAlbumP p ∧ ¬isMerchP p) ∨
  (¬isSongP p ∧ isAlbumP p ∧ ¬isMerchP p) ∨
  (¬isSongP p ∧ ¬isAlbumP p ∧ isMerchP p)

/-- The identity and kind-specific fields not belonging to the product's
kind carry the neutral literals `0` / `[]` (hence never null). -/
def neutralOthers (p : Product) : Prop :=
  (isSongP p → p.merch_id = PyVal.int 0 ∧ p.song_list = []) ∧
  (isAlbumP p → p.song_id = PyVal.int 0 ∧ p.merch_id = PyVal.int 0 ∧
    p.duration = PyVal.int 0) ∧
  (isMerchP p → p.song_id = PyVal.int 0 ∧ p.album_id = PyVal.int 0 ∧
    p.duration = PyVal.int 0 ∧ p.song_list = [])

theorem rgetD_of_truthy {r : Rec} {k : String} {d : PyVal}
    (h : truthy (rget r k) = true) : rgetD r k d = rget r k := by
  unfold rget rgetD at *
  cases hf : List.find? (fun p => p.1 == k) r with
  | none => rw [hf] at h; simp [truthy] at h
  | some p => rfl

theorem genreField_of_falsy {r : Rec} (h : truthy (rget r "genres") = false) :
    genreField r = Except.ok "0" := by
  unfold genreField
  rw [h]
  simp

theorem genreField_of_cons {r : Rec} {g : PyVal} {gs : List PyVal}
    (h : rget r "genres" = PyVal.list (g :: gs)) :
    genreField r = Except.ok (pyStr g) := by
  have ht : truthy (rget r "genres") = true := by rw [h]; rfl
  unfold genreField
  rw [ht, rgetD_of_truthy ht, h]
  simp [subscript0]

theorem extractIds_eq (f : String) (resp : List Rec) :
    extractIds f resp = (resp.map fun item => rget item f).filter truthy := by
  induction resp with
  | nil => rfl
  | cons a t ih =>
    by_cases h : truthy (rget a f)
    · simp [extractIds, List.filter_cons, h] at ih ⊢
      exact ih
    · simp only [Bool.not_eq_true] at h
      simp [extractIds, List.filter_cons, h] at ih ⊢
      exact ih

theorem mapList_getElem? {f : Rec → Except String Product} :
    ∀ {l : List Rec} {r : List Product}, mapList f l = Except.ok r →
      ∀ i : Nat, r[i]? = (l[i]?).bind fun x => (f x).toOption := by
  intro l
  induction l with
  | nil =>
    intro r h i
    unfold mapList at h
    cases h
    simp
  | cons a t ih =>
    intro r h i
    unfold mapList at h
    cases hf : f a with
    | error e => rw [hf] at h; exact absurd h (by simp)
    | ok p =>
      rw [hf] at h
      cases ht : mapList f t with
      | error e => rw [ht] at h; exact absurd h (by simp)
      | ok ps =>
        rw [ht] at h
        cases h
        cases i with
        | zero => simp [hf, Except.toOption]
        | succ j => simpa using ih ht j

theorem mapList_length {f : Rec → Except String Product} :
    ∀ {l : List Rec} {r : List Product}, mapList f l = Except.ok r →
      r.length = l.length := by
  intro l
  induction l with
  | nil =>
    intro r h
    unfold mapList at h
    cases h
    rfl
  | cons a t ih =>
    intro r h
    unfold mapList at h
    cases hf : f a with
    | error e => rw [hf] at h; exact absurd h (by simp)
    | ok p =>
      rw [hf] at h
      cases ht : mapList f t with
      | error e => rw [ht] at h; exact absurd h (by simp)
      | ok ps =>
        rw [ht] at h
        cases h
        simp [ih ht]

theorem mapList_mem {f : Rec → Except String Product} :
    ∀ {l : List Rec} {r : List Product}, mapList f l = Except.ok r →
      ∀ p ∈ r, ∃ x ∈ l, f x = Except.ok p := by
  intro l
  induction l with
  | nil =>
    intro r h p hp
    unfold mapList at h
    cases h
    simp at hp
  | cons a t ih =>
    intro r h p hp
    unfold mapList at h
    cases hf : f a with
    | error e => rw [hf] at h; exact absurd h (by simp)
    | ok q =>
      rw [hf] at h
      cases ht : mapList f t with
      | error e => rw [ht] at h; exact absurd h (by simp)
      | ok ps =>
        rw [ht] at h
        cases h
        rcases List.mem_cons.mp hp with hq | hmem
        · exact ⟨a, List.mem_cons_self a t, hq ▸ hf⟩
        · rcases ih ht p hmem with ⟨x, hx, hfx⟩
          exact ⟨x, List.mem_cons_of_mem a hx, hfx⟩

theorem mapSong_ok_fields {c : Rec} {p : Product} (h : mapSong c = Except.ok p) :
    p.song_id = rget c "songId" ∧ p.album_id = rget c "albumId" ∧
    p.merch_id = PyVal.int 0 ∧ p.name = rget c "title" ∧
    p.artist = pyStr (rget c "artistId") ∧
    p.release_date = pyStr (rget c "releaseDate") ++ "T00:00:00Z" ∧
    p.duration = rget c "duration" ∧ p.song_list = [] ∧
    genreField c = Except.ok p.genre := by
  unfold mapSong at h
  cases hg : genreField c with
  | error e => rw [hg] at h; exact absurd h (by simp)
  | ok g =>
    rw [hg] at h
    cases hc : strEachIter (rgetD c "collaborators" (PyVal.list [])) with
    | error e => rw [hc] at h; exact absurd h (by simp)
    | ok cols =>
      rw [hc] at h
      cases h
      exact ⟨rfl, rfl, rfl, rfl, rfl, rfl, rfl, rfl, rfl⟩

theorem mapAlbum_ok_fields {a : Rec} {p : Product} (h : mapAlbum a = Except.ok p) :
    p.song_id = PyVal.int 0 ∧ p.album_id = rget a "albumId" ∧
    p.merch_id = PyVal.int 0 ∧ p.name = rget a "title" ∧
    p.artist = pyStr (rget a "artistId") ∧
    p.release_date = pyStr (rget a "releaseDate") ++ "T00:00:00Z" ∧
    p.duration = PyVal.int 0 ∧
    genreField a = Except.ok p.genre := by
  unfold mapAlbum at h
  cases hs : strEachIter (rgetD a "songs" (PyVal.list [])) with
  | error e => rw [hs] at h; exact absurd h (by simp)
  | ok sl =>
    rw [hs] at h
    cases hg : genreField a with
    | error e => rw [hg] at h; exact absurd h (by simp)
    | ok g =>
      rw [hg] at h
      cases hc : strEachIter (rgetD a "collaborators" (PyVal.list [])) with
      | error e => rw [hc] at h; exact absurd h (by simp)
      | ok cols =>
        rw [hc] at h
        cases h
        exact ⟨rfl, rfl, rfl, rfl, rfl, rfl, rfl, rfl⟩

theorem mapMerch_ok_fields {m : Rec} {p : Product} (h : mapMerch m = Except.ok p) :
    p.song_id = PyVal.int 0 ∧ p.album_id = PyVal.int 0 ∧
    p.merch_id = rget m "merchId" ∧ p.name = rget m "title" ∧
    p.artist = pyStr (rget m "artistId") ∧
    p.release_date = pyStr (rget m "releaseDate") ++ "T00:00:00Z" ∧
    p.duration = PyVal.int 0 ∧ p.genre = "Merch" ∧ p.song_list = [] := by
  unfold mapMerch at h
  cases hc : strEachIter (rgetD m "collaborators" (PyVal.list [])) with
  | error e => rw [hc] at h; exact absurd h (by simp)
  | ok cols =>
    rw [hc] at h
    cases h
    exact ⟨rfl, rfl, rfl, rfl, rfl, rfl, rfl, rfl, rfl⟩

/-! ### Claims -/

/-- Claim C3: for each kind, identifier extraction returns exactly the
ordered list of truthy identifier values of the filter response; entries
with a missing or falsy identifier (including `0`) are dropped, and the
extracted length equals the count of truthy identifier values. -/
theorem C3_identifier_extraction (k : Kind) (resp : List Rec) :
    extractIds (idField k) resp =
      (resp.map fun item => rget item (idField k)).filter truthy ∧
    (∀ v ∈ extractIds (idField k) resp, truthy v = true) ∧
    (extractIds (idField k) resp).length =
      ((resp.map fun item => rget item (idField k)).filter truthy).length ∧
    (∀ v : PyVal, truthy v = false → v ∉ extractIds (idField k) resp) := by
  refine ⟨extractIds_eq _ _, ?_, by rw [extractIds_eq], ?_⟩
  · intro v hv
    rw [extractIds_eq] at hv
    exact (List.mem_filter.mp hv).2
  · intro v hf hmem
    rw [extractIds_eq] at hmem
    have := (List.mem_filter.mp hmem).2
    rw [hf] at this
    exact absurd this (by simp)

/-- Witness for C3 at the concrete response `respEx`: the falsy identifier
`0` is dropped from the extracted list. -/
theorem C3_identifier_extraction_witness :
    truthy (PyVal.int 0) = false ∧
    PyVal.int 0 ∉ extractIds (idField Kind.song) respEx := by
  refine ⟨by decide, ?_⟩
  exact (C3_identifier_extraction Kind.song respEx).2.2.2 (PyVal.int 0) (by decide)

/-- Counterexample to claim C2: the album record `albEx` (with
`genres = [7]`) maps to a product whose `genre` is `"7"`, not the fixed
literal `"Merch"` — the album loop derives genre from `genres[0]` exactly
like the song loop; only the merch loop hardcodes `"Merch"`. -/
theorem C2_counterexample :
    (mapAlbum albEx).map Product.genre = Except.ok "7" ∧ "7" ≠ "Merch" := by
  exact ⟨rfl, by decide⟩

/-- Claim C2 as amended: for every upstream album record, the mapped
genre is the stringified first element of a truthy `genres` value and
`"0"` when `genres` is absent or falsy — the same rule as songs; it is not
the fixed literal `"Merch"`. -/
theorem C2_album_genre_amended (a : Rec) (p : Product)
    (h : mapAlbum a = Except.ok p) :
    (∀ g gs, rget a "genres" = PyVal.list (g :: gs) → p.genre = pyStr g) ∧
    (truthy (rget a "genres") = false → p.genre = "0") := by
  obtain ⟨-, -, -, -, -, -, -, hg⟩ := mapAlbum_ok_fields h
  constructor
  · intro g gs hgen
    rw [genreField_of_cons hgen] at hg
    injection hg with hq
    exact hq.symm
  · intro hf
    rw [genreField_of_falsy hf] at hg
    injection hg with hq
    exact hq.symm

/-- Witness for the amended C2 at the concrete record `albEx`. -/
theorem C2_album_genre_amended_witness : albExProd.genre = pyStr (PyVal.int 7) := by
  have h : mapAlbum albEx = Except.ok albExProd := by rfl
  exact (C2_album_genre_amended albEx albExProd h).1 (PyVal.int 7) [] (by rfl)

/-- Claim C10 (implicit): a record lacking a common field does not get a
neutral default for it — missing `artistId` yields the literal string
`"None"`, missing `releaseDate` yields `"NoneT00:00:00Z"`, and a song
record missing `duration` yields a null (`PyVal.none`) duration, not 0. -/
theorem C10_missing_common_fields (c : Rec) (p : Product) :
    (mapSong c = Except.ok p →
      (rget c "artistId" = PyVal.none → p.artist = "None") ∧
      (rget c "releaseDate" = PyVal.none → p.release_date = "NoneT00:00:00Z") ∧
      (rget c "duration" = PyVal.none → p.duration = PyVal.none)) ∧
    (mapAlbum c = Except.ok p →
      (rget c "artistId" = PyVal.none → p.artist = "None") ∧
      (rget c "releaseDate" = PyVal.none → p.release_date = "NoneT00:00:00Z")) ∧
    (mapMerch c = Except.ok p →
      (rget c "artistId" = PyVal.none → p.artist = "None") ∧
      (rget c "releaseDate" = PyVal.none → p.release_date = "NoneT00:00:00Z")) := by
  refine ⟨fun h => ?_, fun h => ?_, fun h => ?_⟩
  · obtain ⟨-, -, -, -, ha, hr, hd, -, -⟩ := mapSong_ok_fields h
    exact ⟨fun hx => by rw [ha, hx]; rfl, fun hx => by rw [hr, hx]; rfl,
      fun hx => by rw [hd, hx]⟩
  · obtain ⟨-, -, -, -, ha, hr, -, -⟩ := mapAlbum_ok_fields h
    exact ⟨fun hx => by rw [ha, hx]; rfl, fun hx => by rw [hr, hx]; rfl⟩
  · obtain ⟨-, -, -, -, ha, hr, -, -, -⟩ := mapMerch_ok_fields h
    exact ⟨fun hx => by rw [ha, hx]; rfl, fun hx => by rw [hr, hx]; rfl⟩

/-- Witness for C10 at the empty record. -/
theorem C10_missing_common_fields_witness :
    emptyRecProd.artist = "None" ∧ emptyRecProd.release_date = "NoneT00:00:00Z" ∧
    emptyRecProd.duration = PyVal.none := by
  have h : mapSong ([] : Rec) = Except.ok emptyRecProd := rfl
  have w := (C10_missing_common_fields ([] : Rec) emptyRecProd).1 h
  exact ⟨w.1 rfl, w.2.1 rfl, w.2.2 rfl⟩

theorem strEachIter_isOk {v : PyVal} (h : iterOk v = true) :
    (strEachIter v).isOk = true := by
  cases v with
  | none => simp [iterOk] at h
  | int n => simp [iterOk] at h
  | str s => rfl
  | list l => rfl

theorem genreField_isOk {r : Rec} (h : genreOk (rget r "genres") = true) :
    (genreField r).isOk = true := by
  by_cases ht : truthy (rget r "genres") = true
  · unfold genreField
    rw [if_pos ht, rgetD_of_truthy ht]
    cases hv : rget r "genres" with
    | none => rw [hv] at ht; simp [truthy] at ht
    | int n =>
        rw [hv] at h ht
        simp [genreOk] at h
        simp [truthy, h] at ht
    | str s =>
        rw [hv] at ht
        cases hs : s.data with
        | nil => simp [truthy, hs] at ht
        | cons c cs => simp [subscript0, hs, Except.isOk, Except.toBool]
    | list l =>
        rw [hv] at ht
        cases l with
        | nil => simp [truthy] at ht
        | cons x xs => simp [subscript0, Except.isOk, Except.toBool]
  · simp only [Bool.not_eq_true] at ht
    rw [genreField_of_falsy ht]
    rfl

theorem exists_ok_of_isOk {α β : Type} {e : Except α β} (h : e.isOk = true) :
    ∃ b, e = Except.ok b := by
  cases e with
  | error a => simp [Except.isOk, Except.toBool] at h
  | ok b => exact ⟨b, rfl⟩

/-- Claim C9: the per-record mapping is total on well-formed upstream
records — it never raises, and the `genres[0]` subscript is reached only
behind the truthiness guard (falsy/absent `genres` short-circuits to
`"0"`, and a non-empty `genres` list yields its stringified head).
Product construction itself is total (`Product.__init__` bypasses the
validating setters), which the plain structure literal reflects. -/
theorem C9_mapper_total (r : Rec) :
    (wfSongRec r = true → (mapSong r).isOk = true) ∧
    (wfAlbumRec r = true → (mapAlbum r).isOk = true) ∧
    (wfMerchRec r = true → (mapMerch r).isOk = true) ∧
    (truthy (rget r "genres") = false → genreField r = Except.ok "0") ∧
    (∀ g gs, rget r "genres" = PyVal.list (g :: gs) →
      genreField r = Except.ok (pyStr g)) := by
  refine ⟨fun h => ?_, fun h => ?_, fun h => ?_,
    fun h => genreField_of_falsy h, fun g gs h => genreField_of_cons h⟩
  · simp only [wfSongRec, Bool.and_eq_true] at h
    obtain ⟨g, hg⟩ := exists_ok_of_isOk (genreField_isOk h.1)
    obtain ⟨cols, hc⟩ := exists_ok_of_isOk (strEachIter_isOk h.2)
    unfold mapSong
    rw [hg, hc]
    rfl
  · simp only [wfAlbumRec, Bool.and_eq_true] at h
    obtain ⟨sl, hs⟩ := exists_ok_of_isOk (strEachIter_isOk h.1.1)
    obtain ⟨g, hg⟩ := exists_ok_of_isOk (genreField_isOk h.1.2)
    obtain ⟨cols, hc⟩ := exists_ok_of_isOk (strEachIter_isOk h.2)
    unfold mapAlbum
    rw [hs, hg, hc]
    rfl
  · simp only [wfMerchRec] at h
    obtain ⟨cols, hc⟩ := exists_ok_of_isOk (strEachIter_isOk h)
    unfold mapMerch
    rw [hc]
    rfl

/-- Witness for C9 at the concrete record `songEx`. -/
theorem C9_mapper_total_witness : (mapSong songEx).isOk = true :=
  (C9_mapper_total songEx).1 (by decide)

/-- Claim C7: an exception raised outside the isolated fetch boundary
(i.e. during the mapping loops / list assembly) yields an `Error` object
with code `"500"` and the exception's textual description as message, and
this is the only execution path producing an error response instead of a
(possibly empty) product list. -/
theorem C7_error_path (env : Env) :
    (∀ msg, mapAll (fetchAll env).2 = Except.error msg →
      show_storefront_products env =
        Except.error { code := "500", message := msg }) ∧
    (∀ err, show_storefront_products env = Except.error err →
      err.code = "500" ∧ mapAll (fetchAll env).2 = Except.error err.message) := by
  constructor
  · intro msg h
    unfold show_storefront_products
    rw [h]
  · intro err h
    unfold show_storefront_products at h
    cases hm : mapAll (fetchAll env).2 with
    | ok ps => rw [hm] at h; exact absurd h (by simp)
    | error msg =>
        rw [hm] at h
        injection h with h
        rw [← h]
        exact ⟨rfl, rfl⟩

/-- Witness for C7 at `envBad`: the mapping `TypeError` surfaces as an
error object with code `"500"` and the exception text as message. -/
theorem C7_error_path_witness :
    show_storefront_products envBad =
      Except.error
        { code := "500",
          message := "TypeError: \x27int\x27 object is not iterable" } :=
  (C7_error_path envBad).1 "TypeError: \x27int\x27 object is not iterable" (by rfl)

/-- Claim C1: if any network/transport failure occurs anywhere in the
two-phase fetch (identifier or detail phase, any kind), the whole fetch
degrades to empty record lists for all three kinds, the failure is not
propagated, and `show_storefront_products` still returns an (empty)
product list rather than an error object. -/
theorem C1_fetch_failure_degrades (env : Env)
    (h : (tryFetch env).2 = Except.error ()) :
    (fetchAll env).2 = { canciones := [], albumes := [], merch := [] } ∧
    show_storefront_products env = Except.ok [] := by
  unfold show_storefront_products fetchAll
  rcases he : tryFetch env with ⟨log, res⟩
  rw [he] at h
  simp only at h
  subst h
  exact ⟨rfl, rfl⟩

/-- Witness for C1 at `envFail`. -/
theorem C1_fetch_failure_degrades_witness :
    (fetchAll envFail).2 = { canciones := [], albumes := [], merch := [] } ∧
    show_storefront_products envFail = Except.ok [] :=
  C1_fetch_failure_degrades envFail (by rfl)

/-- Claim C5: the output list is exactly mapped songs, then mapped albums,
then mapped merch, in that fixed kind order; within each kind the output
position `i` holds the image of upstream detail record `i`, so order
matches the upstream detail-list response. -/
theorem C5_output_order (env : Env) (ps : List Product)
    (h : show_storefront_products env = Except.ok ps) :
    ∃ s a m,
      mapList mapSong (fetchAll env).2.canciones = Except.ok s ∧
      mapList mapAlbum (fetchAll env).2.albumes = Except.ok a ∧
      mapList mapMerch (fetchAll env).2.merch = Except.ok m ∧
      ps = s ++ a ++ m ∧
      (∀ i : Nat, s[i]? = ((fetchAll env).2.canciones[i]?).bind
        fun x => (mapSong x).toOption) ∧
      (∀ i : Nat, a[i]? = ((fetchAll env).2.albumes[i]?).bind
        fun x => (mapAlbum x).toOption) ∧
      (∀ i : Nat, m[i]? = ((fetchAll env).2.merch[i]?).bind
        fun x => (mapMerch x).toOption) := by
  unfold show_storefront_products at h
  cases hm : mapAll (fetchAll env).2 with
  | error e => rw [hm] at h; exact absurd h (by simp)
  | ok l =>
    rw [hm] at h
    injection h with h
    subst h
    unfold mapAll at hm
    cases hs : mapList mapSong (fetchAll env).2.canciones with
    | error e => rw [hs] at hm; exact absurd hm (by simp)
    | ok s =>
      rw [hs] at hm
      cases ha : mapList mapAlbum (fetchAll env).2.albumes with
      | error e => rw [ha] at hm; exact absurd hm (by simp)
      | ok a =>
        rw [ha] at hm
        cases hme : mapList mapMerch (fetchAll env).2.merch with
        | error e => rw [hme] at hm; exact absurd hm (by simp)
        | ok m =>
          rw [hme] at hm
          injection hm with hm
          exact ⟨s, a, m, rfl, rfl, rfl, hm.symm,
            mapList_getElem? hs, mapList_getElem? ha, mapList_getElem? hme⟩

/-- Witness for C5 at `env3`: the output is the song product, then the
album product, then the merch product. -/
theorem C5_output_order_witness :
    psEx = [songExProd] ++ [albumExProd] ++ [merchExProd] := by
  obtain ⟨s, a, m, hs, ha, hm, hcat, -, -, -⟩ :=
    C5_output_order env3 psEx (by rfl)
  have hs2 : (Except.ok s : Except String (List Product)) =
      Except.ok [songExProd] := by rw [← hs]; rfl
  have ha2 : (Except.ok a : Except String (List Product)) =
      Except.ok [albumExProd] := by rw [← ha]; rfl
  have hm2 : (Except.ok m : Except String (List Product)) =
      Except.ok [merchExProd] := by rw [← hm]; rfl
  injection hs2 with hs2
  injection ha2 with ha2
  injection hm2 with hm2
  rw [hcat, hs2, ha2, hm2]

theorem detailStep_nil_eq (env : Env) (k : Kind) :
    detailStep env k [] = ([], Except.ok []) := rfl

theorem detailStep_cons_eq (env : Env) (k : Kind) (x : PyVal) (xs : List PyVal) :
    detailStep env k (x :: xs) =
      ([Request.list k (joinIds (x :: xs))],
       env (Request.list k (joinIds (x :: xs)))) := rfl

theorem detailStep_log_mem (env : Env) (k : Kind) (ids : List PyVal) :
    ∀ r ∈ (detailStep env k ids).1, r = Request.list k (joinIds ids) := by
  intro r hr
  cases ids with
  | nil => rw [detailStep_nil_eq] at hr; simp at hr
  | cons x xs =>
      rw [detailStep_cons_eq] at hr
      simpa using hr

theorem tryDetails_log_sub (env : Env) (sIds aIds mIds : List PyVal) :
    ∀ r ∈ (tryDetails env sIds aIds mIds).1,
      r ∈ base3 ++ (detailStep env Kind.song sIds).1 ++
        (detailStep env Kind.album aIds).1 ++ (detailStep env Kind.merch mIds).1 := by
  intro r hr
  unfold tryDetails at hr
  rcases h1 : detailStep env Kind.song sIds with ⟨l1, c1⟩
  rw [h1] at hr
  cases c1 with
  | error e =>
      simp only [List.mem_append] at hr ⊢
      tauto
  | ok c =>
    rcases h2 : detailStep env Kind.album aIds with ⟨l2, c2⟩
    rw [h2] at hr
    cases c2 with
    | error e =>
        simp only [List.mem_append] at hr ⊢
        tauto
    | ok al =>
      rcases h3 : detailStep env Kind.merch mIds with ⟨l3, c3⟩
      rw [h3] at hr
      cases c3 with
      | error e =>
          simp only [List.mem_append] at hr ⊢
          tauto
      | ok me => exact hr

theorem tryDetails_song_req (env : Env) (sIds aIds mIds : List PyVal) (s : String)
    (h : Request.list Kind.song s ∈ (tryDetails env sIds aIds mIds).1) :
    sIds ≠ [] ∧ s = joinIds sIds := by
  have hsub := tryDetails_log_sub env sIds aIds mIds _ h
  simp only [List.mem_append] at hsub
  rcases hsub with ((hb | h1) | h2) | h3
  · simp [base3] at hb
  · have hx := detailStep_log_mem env Kind.song sIds _ h1
    injection hx with hk hs
    refine ⟨?_, hs⟩
    intro hnil
    subst hnil
    rw [detailStep_nil_eq] at h1
    simp at h1
  · have hx := detailStep_log_mem env Kind.album aIds _ h2
    injection hx with hk hs
    exact absurd hk (by simp)
  · have hx := detailStep_log_mem env Kind.merch mIds _ h3
    injection hx with hk hs
    exact absurd hk (by simp)

theorem tryDetails_album_req (env : Env) (sIds aIds mIds : List PyVal) (s : String)
    (h : Request.list Kind.album s ∈ (tryDetails env sIds aIds mIds).1) :
    aIds ≠ [] ∧ s = joinIds aIds := by
  have hsub := tryDetails_log_sub env sIds aIds mIds _ h
  simp only [List.mem_append] at hsub
  rcases hsub with ((hb | h1) | h2) | h3
  · simp [base3] at hb
  · have hx := detailStep_log_mem env Kind.song sIds _ h1
    injection hx with hk hs
    exact absurd hk (by simp)
  · have hx := detailStep_log_mem env Kind.album aIds _ h2
    injection hx with hk hs
    refine ⟨?_, hs⟩
    intro hnil
    subst hnil
    rw [detailStep_nil_eq] at h2
    simp at h2
  · have hx := detailStep_log_mem env Kind.merch mIds _ h3
    injection hx with hk hs
    exact absurd hk (by simp)

theorem tryDetails_merch_req (env : Env) (sIds aIds mIds : List PyVal) (s : String)
    (h : Request.list Kind.merch s ∈ (tryDetails env sIds aIds mIds).1) :
    mIds ≠ [] ∧ s = joinIds mIds := by
  have hsub := tryDetails_log_sub env sIds aIds mIds _ h
  simp only [List.mem_append] at hsub
  rcases hsub with ((hb | h1) | h2) | h3
  · simp [base3] at hb
  · have hx := detailStep_log_mem env Kind.song sIds _ h1
    injection hx with hk hs
    exact absurd hk (by simp)
  · have hx := detailStep_log_mem env Kind.album aIds _ h2
    injection hx with hk hs
    exact absurd hk (by simp)
  · have hx := detailStep_log_mem env Kind.merch mIds _ h3
    injection hx with hk hs
    exact ⟨fun hnil => by subst hnil; rw [detailStep_nil_eq] at h3; simp at h3, hs⟩

theorem fetchAll_log (env : Env) : (fetchAll env).1 = (tryFetch env).1 := by
  unfold fetchAll
  rcases h : tryFetch env with ⟨log, res⟩
  cases res <;> rfl

theorem tryFetch_list_mem (env : Env) (k : Kind) (s : String)
    (h : Request.list k s ∈ (tryFetch env).1) :
    ∃ rs ra rm, env (Request.filter Kind.song) = Except.ok rs ∧
      env (Request.filter Kind.album) = Except.ok ra ∧
      env (Request.filter Kind.merch) = Except.ok rm ∧
      Request.list k s ∈ (tryDetails env (extractIds "songId" rs)
        (extractIds "albumId" ra) (extractIds "merchId" rm)).1 := by
  unfold tryFetch at h
  cases h1 : env (Request.filter Kind.song) with
  | error e => rw [h1] at h; simp at h
  | ok rs =>
    rw [h1] at h
    cases h2 : env (Request.filter Kind.album) with
    | error e => rw [h2] at h; simp at h
    | ok ra =>
      rw [h2] at h
      cases h3 : env (Request.filter Kind.merch) with
      | error e => rw [h3] at h; simp at h
      | ok rm =>
        rw [h3] at h
        exact ⟨rs, ra, rm, rfl, rfl, rfl, h⟩

theorem tryDetails_ok_rec (env : Env) (sIds aIds mIds : List PyVal)
    (log : List Request) (d : FetchData)
    (h : tryDetails env sIds aIds mIds = (log, Except.ok d)) :
    (sIds = [] → d.canciones = []) ∧ (aIds = [] → d.albumes = []) ∧
    (mIds = [] → d.merch = []) := by
  unfold tryDetails at h
  rcases h1 : detailStep env Kind.song sIds with ⟨l1, c1⟩
  rw [h1] at h
  cases c1 with
  | error e => injection h with hl hv; exact absurd hv (by simp)
  | ok c =>
    rcases h2 : detailStep env Kind.album aIds with ⟨l2, c2⟩
    rw [h2] at h
    cases c2 with
    | error e => injection h with hl hv; exact absurd hv (by simp)
    | ok al =>
      rcases h3 : detailStep env Kind.merch mIds with ⟨l3, c3⟩
      rw [h3] at h
      cases c3 with
      | error e => injection h with hl hv; exact absurd hv (by simp)
      | ok me =>
        injection h with hl hv
        injection hv with hv
        subst hv
        refine ⟨fun hn => ?_, fun hn => ?_, fun hn => ?_⟩
        · subst hn
          rw [detailStep_nil_eq] at h1
          injection h1 with hx hy
          injection hy with hy
          exact hy.symm
        · subst hn
          rw [detailStep_nil_eq] at h2
          injection h2 with hx hy
          injection hy with hy
          exact hy.symm
        · subst hn
          rw [detailStep_nil_eq] at h3
          injection h3 with hx hy
          injection hy with hy
          exact hy.symm

theorem tryFetch_ok_rec (env : Env) (log : List Request) (d : FetchData)
    (h : tryFetch env = (log, Except.ok d)) :
    ∃ rs ra rm, env (Request.filter Kind.song) = Except.ok rs ∧
      env (Request.filter Kind.album) = Except.ok ra ∧
      env (Request.filter Kind.merch) = Except.ok rm ∧
      (extractIds "songId" rs = [] → d.canciones = []) ∧
      (extractIds "albumId" ra = [] → d.albumes = []) ∧
      (extractIds "merchId" rm = [] → d.merch = []) := by
  unfold tryFetch at h
  cases h1 : env (Request.filter Kind.song) with
  | error e => rw [h1] at h; injection h with hl hv; exact absurd hv (by simp)
  | ok rs =>
    rw [h1] at h
    cases h2 : env (Request.filter Kind.album) with
    | error e => rw [h2] at h; injection h with hl hv; exact absurd hv (by simp)
    | ok ra =>
      rw [h2] at h
      cases h3 : env (Request.filter Kind.merch) with
      | error e => rw [h3] at h; injection h with hl hv; exact absurd hv (by simp)
      | ok rm =>
        rw [h3] at h
        exact ⟨rs, ra, rm, rfl, rfl, rfl, tryDetails_ok_rec env _ _ _ log d h⟩

theorem show_ok_decomp (env : Env) (ps : List Product)
    (h : show_storefront_products env = Except.ok ps) :
    ∃ s a m, mapList mapSong (fetchAll env).2.canciones = Except.ok s ∧
      mapList mapAlbum (fetchAll env).2.albumes = Except.ok a ∧
      mapList mapMerch (fetchAll env).2.merch = Except.ok m ∧
      ps = s ++ a ++ m := by
  unfold show_storefront_products at h
  cases hm : mapAll (fetchAll env).2 with
  | error e => rw [hm] at h; exact absurd h (by simp)
  | ok l =>
    rw [hm] at h
    injection h with h
    subst h
    unfold mapAll at hm
    cases hs : mapList mapSong (fetchAll env).2.canciones with
    | error e => rw [hs] at hm; exact absurd hm (by simp)
    | ok s =>
      rw [hs] at hm
      cases ha : mapList mapAlbum (fetchAll env).2.albumes with
      | error e => rw [ha] at hm; exact absurd hm (by simp)
      | ok a =>
        rw [ha] at hm
        cases hme : mapList mapMerch (fetchAll env).2.merch with
        | error e => rw [hme] at hm; exact absurd hm (by simp)
        | ok m =>
          rw [hme] at hm
          injection hm with hm
          exact ⟨s, a, m, rfl, rfl, rfl, hm.symm⟩

/-- Claim C4: for every kind whose extracted identifier list is empty, no
detail request is issued for that kind, the kind's detail record set is
empty, and the kind contributes zero UnifiedProducts to the output (its
segment of the output concatenation is empty). -/
theorem C4_empty_ids_skip (env : Env) (k : Kind) (resp : List Rec)
    (hk : env (Request.filter k) = Except.ok resp)
    (hempty : extractIds (idField k) resp = []) :
    (∀ s, Request.list k s ∉ (fetchAll env).1) ∧
    kindRecords (fetchAll env).2 k = [] ∧
    (∀ ps, show_storefront_products env = Except.ok ps →
      ∃ s a m, mapList mapSong (fetchAll env).2.canciones = Except.ok s ∧
        mapList mapAlbum (fetchAll env).2.albumes = Except.ok a ∧
        mapList mapMerch (fetchAll env).2.merch = Except.ok m ∧
        ps = s ++ a ++ m ∧ kindSeg k s a m = []) := by
  have hrec : kindRecords (fetchAll env).2 k = [] := by
    unfold fetchAll
    rcases ht : tryFetch env with ⟨log, res⟩
    cases res with
    | error e => cases k <;> rfl
    | ok d =>
      obtain ⟨rs, ra, rm, h1, h2, h3, i1, i2, i3⟩ := tryFetch_ok_rec env log d ht
      cases k with
      | song =>
          rw [hk] at h1
          injection h1 with h1
          subst h1
          exact i1 hempty
      | album =>
          rw [hk] at h2
          injection h2 with h2
          subst h2
          exact i2 hempty
      | merch =>
          rw [hk] at h3
          injection h3 with h3
          subst h3
          exact i3 hempty
  refine ⟨?_, hrec, ?_⟩
  · intro s hmem
    rw [fetchAll_log] at hmem
    obtain ⟨rs, ra, rm, h1, h2, h3, hd⟩ := tryFetch_list_mem env k s hmem
    cases k with
    | song =>
        obtain ⟨hne, -⟩ := tryDetails_song_req env _ _ _ s hd
        rw [hk] at h1
        injection h1 with h1
        subst h1
        exact hne hempty
    | album =>
        obtain ⟨hne, -⟩ := tryDetails_album_req env _ _ _ s hd
        rw [hk] at h2
        injection h2 with h2
        subst h2
        exact hne hempty
    | merch =>
        obtain ⟨hne, -⟩ := tryDetails_merch_req env _ _ _ s hd
        rw [hk] at h3
        injection h3 with h3
        subst h3
        exact hne hempty
  · intro ps hok
    obtain ⟨s, a, m, hs, ha, hm, hcat⟩ := show_ok_decomp env ps hok
    refine ⟨s, a, m, hs, ha, hm, hcat, ?_⟩
    cases k with
    | song =>
        have : kindRecords (fetchAll env).2 Kind.song = [] := hrec
        rw [kindRecords] at this
        rw [this] at hs
        unfold mapList at hs
        injection hs with hs
        exact hs.symm
    | album =>
        have : kindRecords (fetchAll env).2 Kind.album = [] := hrec
        rw [kindRecords] at this
        rw [this] at ha
        unfold mapList at ha
        injection ha with ha
        exact ha.symm
    | merch =>
        have : kindRecords (fetchAll env).2 Kind.merch = [] := hrec
        rw [kindRecords] at this
        rw [this] at hm
        unfold mapList at hm
        injection hm with hm
        exact hm.symm

/-- Witness for C4 at `env4`, kind album: no album detail request is in
the log and no album records are fetched. -/
theorem C4_empty_ids_skip_witness :
    Request.list Kind.album "0" ∉ (fetchAll env4).1 ∧
    kindRecords (fetchAll env4).2 Kind.album = [] := by
  have h := C4_empty_ids_skip env4 Kind.album [[("albumId", PyVal.int 0)]]
    (by rfl) (by decide)
  exact ⟨h.1 "0", h.2.1⟩

/-- Claim C6: every batched detail request that is issued carries as its
`ids` parameter exactly the comma-separated join of the stringified
identifiers produced by the filter phase for that kind, in order; in
particular identifiers `[1,2,3]` join to `"1,2,3"`. -/
theorem C6_ids_param (env : Env) (k : Kind) (s : String)
    (hmem : Request.list k s ∈ (fetchAll env).1) :
    (∃ resp, env (Request.filter k) = Except.ok resp ∧
      extractIds (idField k) resp ≠ [] ∧
      s = joinIds (extractIds (idField k) resp)) ∧
    joinIds [PyVal.int 1, PyVal.int 2, PyVal.int 3] = "1,2,3" := by
  rw [fetchAll_log] at hmem
  obtain ⟨rs, ra, rm, h1, h2, h3, hd⟩ := tryFetch_list_mem env k s hmem
  refine ⟨?_, by decide⟩
  cases k with
  | song =>
      obtain ⟨hne, hs⟩ := tryDetails_song_req env _ _ _ s hd
      exact ⟨rs, h1, hne, hs⟩
  | album =>
      obtain ⟨hne, hs⟩ := tryDetails_album_req env _ _ _ s hd
      exact ⟨ra, h2, hne, hs⟩
  | merch =>
      obtain ⟨hne, hs⟩ := tryDetails_merch_req env _ _ _ s hd
      exact ⟨rm, h3, hne, hs⟩

/-- Witness for C6 at `env3`: the issued song detail request carries
`ids = "1"`, the join of the single extracted identifier, and
`[1,2,3]` joins to `"1,2,3"`. -/
theorem C6_ids_param_witness :
    "1" = joinIds (extractIds (idField Kind.song) [[("songId", PyVal.int 1)]]) ∧
    joinIds [PyVal.int 1, PyVal.int 2, PyVal.int 3] = "1,2,3" := by
  obtain ⟨⟨resp, hresp, hne, hs⟩, hj⟩ := C6_ids_param env3 Kind.song "1" (by decide)
  have he : (Except.ok resp : Except Unit (List Rec)) =
      Except.ok [[("songId", PyVal.int 1)]] := by rw [← hresp]; rfl
  injection he with he
  subst he
  exact ⟨hs, hj⟩

/-- Claim C8: when every fetched detail record carries a truthy identifier
of its own kind (the documented upstream shape), every output product
belongs to exactly one kind and its non-kind identity / kind-specific
fields hold the neutral literals `0` or `[]` — never null. -/
theorem C8_kind_invariant (env : Env) (ps : List Product)
    (hws : ∀ c ∈ (fetchAll env).2.canciones, truthy (rget c "songId") = true)
    (hwa : ∀ x ∈ (fetchAll env).2.albumes, truthy (rget x "albumId") = true)
    (hwm : ∀ x ∈ (fetchAll env).2.merch, truthy (rget x "merchId") = true)
    (h : show_storefront_products env = Except.ok ps) :
    ∀ p ∈ ps, exactlyOneKind p ∧ neutralOthers p := by
  obtain ⟨s, a, m, hs, ha, hm, hcat⟩ := show_ok_decomp env ps h
  intro p hp
  rw [hcat] at hp
  rcases List.mem_append.mp hp with hsa | hm3
  · rcases List.mem_append.mp hsa with hps | hpa
    · obtain ⟨c, hc, hmap⟩ := mapList_mem hs p hps
      obtain ⟨f1, -, f3, -, -, -, -, f8, -⟩ := mapSong_ok_fields hmap
      have hS : isSongP p := by unfold isSongP; rw [f1]; exact hws c hc
      have hnM : ¬isMerchP p := by unfold isMerchP; rw [f3]; decide
      have hnA : ¬isAlbumP p := by
        rintro ⟨-, hf⟩
        rw [f1, hws c hc] at hf
        exact absurd hf (by simp)
      exact ⟨Or.inl ⟨hS, hnA, hnM⟩, fun _ => ⟨f3, f8⟩,
        fun hA => (hnA hA).elim, fun hM => (hnM hM).elim⟩
    · obtain ⟨x, hx, hmap⟩ := mapList_mem ha p hpa
      obtain ⟨f1, f2, f3, -, -, -, f7, -⟩ := mapAlbum_ok_fields hmap
      have hnS : ¬isSongP p := by unfold isSongP; rw [f1]; decide
      have hA : isAlbumP p :=
        ⟨by rw [f2]; exact hwa x hx, by rw [f1]; decide⟩
      have hnM : ¬isMerchP p := by unfold isMerchP; rw [f3]; decide
      exact ⟨Or.inr (Or.inl ⟨hnS, hA, hnM⟩), fun hSS => (hnS hSS).elim,
        fun _ => ⟨f1, f3, f7⟩, fun hM => (hnM hM).elim⟩
  · obtain ⟨x, hx, hmap⟩ := mapList_mem hm p hm3
    obtain ⟨f1, f2, f3, -, -, -, f7, -, f9⟩ := mapMerch_ok_fields hmap
    have hnS : ¬isSongP p := by unfold isSongP; rw [f1]; decide
    have hnA : ¬isAlbumP p := by
      rintro ⟨hA, -⟩
      rw [f2] at hA
      exact absurd hA (by decide)
    have hM : isMerchP p := by unfold isMerchP; rw [f3]; exact hwm x hx
    exact ⟨Or.inr (Or.inr ⟨hnS, hnA, hM⟩), fun hSS => (hnS hSS).elim,
      fun hA => (hnA hA).elim, fun _ => ⟨f1, f2, f7, f9⟩⟩

/-- Witness for C8 at `env3`, instantiated at the song product of its
output. -/
theorem C8_kind_invariant_witness :
    exactlyOneKind songExProd ∧ neutralOthers songExProd :=
  C8_kind_invariant env3 psEx (by decide) (by decide) (by decide) (by rfl)
    songExProd (by decide)
